import Mathlib

/-!
Verification of the `ex` error-composition library (package `ex`, file `ex.go`).

The library manipulates Go `error` interface values.  In the closed universe
relevant to the package, an `error` variable holds one of:
  * nil — the absent error;
  * a `ConstError` — a string-backed sentinel value, compared by text;
  * a standard-library error (`errors.New`) — a heap-allocated value compared
    by pointer identity;
  * an `*ExtraError` — a heap-allocated node with two unexported fields
    `err` (the "self") and `cause`, compared by pointer identity.

Heap addresses are modelled as `Nat` identifiers.  Functions that allocate
(`New`, `From`, `Because`, …) take the address of the freshly allocated node
as an explicit extra argument; the Go allocator always returns an address
distinct from every live object, which theorems state as a freshness
hypothesis where it matters.
-/

namespace Ex

/-- Model of a Go `error` interface value around package `ex`:
`nilErr` is the nil interface value, `constError` models `ConstError`
(a string value), `stdError` a plain external error (e.g. from `errors.New`,
carrying its address and message), and `extraError` an `*ExtraError` node
carrying its address and the two fields `err` and `cause`. -/
inductive GoError : Type where
  | nilErr
  | constError (text : String)
  | stdError (id : Nat) (text : String)
  | extraError (id : Nat) (err : GoError) (cause : GoError)
  deriving DecidableEq, Repr

/-- The Go test `e != nil`, as a Bool. -/
def nonNil : GoError → Bool
  | .nilErr => false
  | _ => true

/-- Go `==` on two `error` interface values: equal dynamic types and equal
values.  `ConstError` is a string, compared by text; `*errorString` and
`*ExtraError` are pointers, compared by address; nil compares equal only
to nil. -/
def goEq : GoError → GoError → Bool
  | .nilErr, .nilErr => true
  | .constError a, .constError b => a == b
  | .stdError i _, .stdError j _ => i == j
  | .extraError i _ _, .extraError j _ _ => i == j
  | _, _ => false

/-- Model of `errors.As(err, &xer)` for `xer : *ExtraError`.  The `errors.As` loop
matches when the current error's dynamic type is `*ExtraError` and otherwise
follows `Unwrap`; in this universe only `*ExtraError` has an `Unwrap` method,
so the loop inspects only the top value: it yields the node's address and
fields when the top value is an `*ExtraError` and fails otherwise (in
particular on nil). -/
def errorsAsExtra : GoError → Option (Nat × GoError × GoError)
  | .extraError i e c => some (i, e, c)
  | _ => none

/-- Model of `Cause(err)` (source lines 131–146): the loop runs while `err` is non-nil;
when the current error is not an `*ExtraError` the loop breaks and the error
is returned as-is; when the node's `cause` is nil the node's `err` field is
returned; otherwise the loop continues on the (non-nil) cause. -/
def Cause : GoError → GoError
  | .nilErr => .nilErr
  | .constError s => .constError s
  | .stdError i s => .stdError i s
  | .extraError _ se .nilErr => se
  | .extraError _ _ (.constError s) => Cause (.constError s)
  | .extraError _ _ (.stdError i s) => Cause (.stdError i s)
  | .extraError _ _ (.extraError i e c) => Cause (.extraError i e c)

/-- Model of `errors.Is(err, target)`.  The standard-library algorithm: when either
side is nil, plain `==`; otherwise a loop of (1) `==` comparison, (2) the
custom `Is` method when the dynamic type has one (only `*ExtraError` does —
source lines 219–229: `errors.Is(e.err, target)`, else when `e.cause` is
non-nil `errors.Is(e.cause, target)`), and (3) `Unwrap` (only `*ExtraError`
has it, yielding its `err` field; a nil unwrap ends the loop with false). -/
def errorsIs : GoError → GoError → Bool
  | .nilErr, .nilErr => true
  | .nilErr, _ => false
  | _, .nilErr => false
  | .constError s, t => goEq (.constError s) t
  | .stdError i s, t => goEq (.stdError i s) t
  | .extraError i e c, t =>
      goEq (.extraError i e c) t
      || (errorsIs e t || (nonNil c && errorsIs c t))
      || (match e with
          | .nilErr => false
          | .constError s => errorsIs (.constError s) t
          | .stdError j s => errorsIs (.stdError j s) t
          | .extraError j e' c' => errorsIs (.extraError j e' c') t)

/-- Model of `(*ExtraError).Is(target)` (source lines 219–229), as a standalone
function of the receiver's two fields.  The middle disjunct of `errorsIs`
on an `extraError` inlines exactly this body. -/
def ExtraError.Is (err cause target : GoError) : Bool :=
  if errorsIs err target then true
  else if nonNil cause then errorsIs cause target
  else false

/-- The function `Cause` never returns a value larger than its argument: it returns either
the argument itself, or a field reached by walking cause links.  Used for the
termination of `errorText`. -/
theorem cause_sizeOf_le (e : GoError) : sizeOf (Cause e) ≤ sizeOf e := by
  induction e with
  | nilErr => simp [Cause]
  | constError s => simp [Cause]
  | stdError i s => simp [Cause]
  | extraError i se c ih1 ih2 =>
      cases c with
      | nilErr => simp [Cause]; omega
      | constError s => simp only [Cause] at ih2 ⊢; simp at ih2 ⊢
      | stdError j s => simp only [Cause] at ih2 ⊢; simp at ih2 ⊢
      | extraError j e' c' =>
          simp only [Cause] at ih2 ⊢
          simp only [GoError.extraError.sizeOf_spec] at ih2 ⊢
          omega

/-- The `Error()` method dispatched over the dynamic type of a non-nil error.
`ConstError.Error` (source lines 159–161) returns the text verbatim; a plain
external error returns its message; `(*ExtraError).Error` (source lines
179–192) returns `""` when the `err` field is nil, and otherwise the `err`
field's text, followed — when the root cause `Cause(e.cause)` is non-nil —
by that root cause's text in parentheses.  The `nilErr` case is unreachable:
Go never invokes `Error()` on a nil interface, and every internal call site
is nil-guarded. -/
def errorText : GoError → String
  | .nilErr => ""
  | .constError s => s
  | .stdError _ s => s
  | .extraError _ se c =>
      if se = .nilErr then ""
      else
        errorText se ++
          (if Cause c = .nilErr then "" else " (" ++ errorText (Cause c) ++ ")")
termination_by e => sizeOf e
decreasing_by
  · simp_wf; omega
  · simp_wf
    refine lt_of_le_of_lt (cause_sizeOf_le _) ?_
    omega

/-- The sentinel `ErrUnexpected ConstError = "unexpected"` (source line 77). -/
def ErrUnexpected : GoError := .constError "unexpected"

/-- Projection of the unexported `err` field ("self") of an `*ExtraError`
node; meaningful only on `extraError` values. -/
def errField : GoError → GoError
  | .extraError _ e _ => e
  | _ => .nilErr

/-- Projection of the unexported `cause` field of an `*ExtraError` node;
meaningful only on `extraError` values. -/
def causeField : GoError → GoError
  | .extraError _ _ c => c
  | _ => .nilErr

/-- Model of `New(text)` (source lines 95–97): a fresh `*ExtraError` (allocated at
address `n`) with `err = ConstError(text)` and nil cause.  The returned
pointer is never nil. -/
def New (text : String) (n : Nat) : GoError :=
  .extraError n (.constError text) .nilErr

/-- Model of `From(other)` (source lines 100–107): when `errors.As` finds an
`*ExtraError` in `other`, a fresh node (at address `n`) copying its `err` and
`cause` fields; otherwise a fresh node wrapping `other` as `err` with nil
cause.  The returned pointer is never nil. -/
def From (other : GoError) (n : Nat) : GoError :=
  match errorsAsExtra other with
  | some (_, e, c) => .extraError n e c
  | none => .extraError n other .nilErr

/-- Model of `Unexpected(cause)` (source lines 110–112): a fresh `*ExtraError` (at
address `n`) with `err = ErrUnexpected` and the given cause.  The function's
result type is the `error` interface; the value returned is always the new
non-nil node. -/
def Unexpected (cause : GoError) (n : Nat) : GoError :=
  .extraError n ErrUnexpected cause

/-- Model of `ConstError.Because(cause)` (source lines 149–151): a fresh `*ExtraError`
(at address `n`) with the constant as `err` and the given cause. -/
def ConstError.Because (c : String) (cause : GoError) (n : Nat) : GoError :=
  .extraError n (.constError c) cause

/-- Model of `ConstError.Reason(text)` (source lines 154–156): a fresh `*ExtraError`
(at address `n`) with the constant as `err` and `ConstError(text)` as cause. -/
def ConstError.Reason (c : String) (text : String) (n : Nat) : GoError :=
  .extraError n (.constError c) (.constError text)

/-- Model of `(*ExtraError).Because(cause)` (source lines 169–171): a fresh
`*ExtraError` (at address `n`) keeping the receiver's `err` field and taking
the given cause.  The receiver `e` is an `extraError` node. -/
def ExtraError.Because (e : GoError) (cause : GoError) (n : Nat) : GoError :=
  .extraError n (errField e) cause

/-- Model of `(*ExtraError).Reason(text)` (source lines 174–176): a fresh `*ExtraError`
(at address `n`) keeping the receiver's `err` field, with `ConstError(text)`
as cause. -/
def ExtraError.Reason (e : GoError) (text : String) (n : Nat) : GoError :=
  .extraError n (errField e) (.constError text)

/-- Model of `Test(err)` (source lines 232–239): when `errors.As` finds an
`*ExtraError`, its `(err, cause)` field pair; otherwise the call panics with
the fixed message `"invalid error type"`, modelled as `Except.error`. -/
def Test (err : GoError) : Except String (GoError × GoError) :=
  match errorsAsExtra err with
  | some (_, e, c) => .ok (e, c)
  | none => .error "invalid error type"

/-- Whether an error is a ChainedError, i.e. an `*ExtraError` node. -/
def isChained : GoError → Bool
  | .extraError _ _ _ => true
  | _ => false

/-- Whether an `*ExtraError` node has a present (non-nil) `err` field. -/
def selfPresent (e : GoError) : Bool := nonNil (errField e)

/-- The spec's root-cause extraction loop (§4.2), written from the spec's
words as a relation: a non-ChainedError (nil included) is its own result; a
ChainedError with absent cause yields its `self`; a ChainedError with a
present cause has the result of its cause. -/
inductive CauseSpec : GoError → GoError → Prop where
  | notChained (e : GoError) : isChained e = false → CauseSpec e e
  | leafSelf (i : Nat) (se : GoError) : CauseSpec (.extraError i se .nilErr) se
  | step (i : Nat) (se c r : GoError) : nonNil c = true → CauseSpec c r →
      CauseSpec (.extraError i se c) r

/-- A chain of depth `links.length` built by repeated `Because`: each link
`(n, s)` is `ConstError(s).Because(rest)` allocated at address `n`; the tail
is the innermost cause (a bare identity, a plain external error, or nil). -/
def mkChain : List (Nat × String) → GoError → GoError
  | [], tail => tail
  | (n, s) :: rest, tail => ConstError.Because s (mkChain rest tail) n

/-- The identity texts used along a chain: the text of every link plus the
tail's text when the tail itself is an identity. -/
def chainTexts (links : List (Nat × String)) (tail : GoError) : List String :=
  links.map Prod.snd ++ (match tail with | .constError s => [s] | _ => [])

/-- Every node reachable along cause links has a non-chained `err` field.
This holds for every value constructible through the package's public
operations: `New`, `Because`, `Reason` and `Unexpected` store a `ConstError`
in `err`, and `From` either copies the fields of an `*ExtraError` or stores a
value that `errors.As` found not to be an `*ExtraError`. -/
def selvesLeaf : GoError → Bool
  | .extraError _ e c => !isChained e && selvesLeaf c
  | _ => true

/-- An error that is not an `*ExtraError` is its own root cause: the `Cause`
loop breaks immediately. -/
theorem cause_not_chained (e : GoError) (h : isChained e = false) : Cause e = e := by
  cases e with
  | nilErr => rfl
  | constError s => rfl
  | stdError i s => rfl
  | extraError i se c => simp [isChained] at h

/-- Guarding a recursive `errors.Is` call on a cause by a nil check is
redundant: `errors.Is` on a nil error and a non-nil target is false. -/
theorem nonNil_and_errorsIs (m t : GoError) (ht : nonNil t = true) :
    (nonNil m && errorsIs m t) = errorsIs m t := by
  cases t with
  | nilErr => simp [nonNil] at ht
  | constError s => cases m <;> simp [nonNil, errorsIs]
  | stdError i s => cases m <;> simp [nonNil, errorsIs]
  | extraError i e c => cases m <;> simp [nonNil, errorsIs]

/-- The middle disjunct of `errorsIs` on an `extraError` is exactly the
`(*ExtraError).Is` method body. -/
theorem errorsIs_extraError_eq (i : Nat) (e c t : GoError) (ht : nonNil t = true) :
    errorsIs (.extraError i e c) t
      = (goEq (.extraError i e c) t || ExtraError.Is e c t
          || (nonNil e && errorsIs e t)) := by
  cases t with
  | nilErr => simp [nonNil] at ht
  | constError s =>
      cases e <;> simp [errorsIs, ExtraError.Is, nonNil, nonNil_and_errorsIs]
  | stdError j s =>
      cases e <;> simp [errorsIs, ExtraError.Is, nonNil, nonNil_and_errorsIs]
  | extraError j e' c' =>
      cases e <;> simp [errorsIs, ExtraError.Is, nonNil, nonNil_and_errorsIs]

/-- C3: `Cause` realizes the spec's root-cause loop, and that loop determines
the result uniquely: `Cause` walks strictly through `*ExtraError` links,
returning any non-ChainedError (nil included) as-is, the `err` field of a
causeless node, and recursing on a present cause. -/
theorem cause_follows_spec :
    (∀ e, CauseSpec e (Cause e)) ∧ (∀ e r, CauseSpec e r → r = Cause e) := by
  constructor
  · intro e
    induction e with
    | nilErr => exact .notChained _ rfl
    | constError s => exact .notChained _ rfl
    | stdError i s => exact .notChained _ rfl
    | extraError i se c ih1 ih2 =>
        cases c with
        | nilErr => exact .leafSelf i se
        | constError s => exact .step i se _ _ rfl (by simpa [Cause] using ih2)
        | stdError j s => exact .step i se _ _ rfl (by simpa [Cause] using ih2)
        | extraError j e' c' => exact .step i se _ _ rfl (by simpa [Cause] using ih2)
  · intro e r h
    induction h with
    | notChained e he => rw [cause_not_chained e he]
    | leafSelf i se => rfl
    | step i se c r hc hcs ih =>
        cases c with
        | nilErr => simp [nonNil] at hc
        | constError s => simpa [Cause] using ih
        | stdError j s => simpa [Cause] using ih
        | extraError j e' c' => simpa [Cause] using ih

/-- C3 witness: the uniqueness direction applied at a concrete derivation —
the spec loop on a causeless node yields its self, which is what `Cause`
computes. -/
theorem cause_follows_spec_witness :
    (.constError "a" : GoError) = Cause (.extraError 0 (.constError "a") .nilErr) :=
  cause_follows_spec.2 (.extraError 0 (.constError "a") .nilErr) (.constError "a")
    (CauseSpec.leafSelf 0 (.constError "a"))

/-- C9: root-cause extraction is idempotent on every error whose nodes keep
non-chained `err` fields — nil, plain errors, and every ChainedError built
through the public operations: `Cause (Cause err) = Cause err`. -/
theorem cause_idempotent (e : GoError) (h : selvesLeaf e = true) :
    Cause (Cause e) = Cause e := by
  induction e with
  | nilErr => rfl
  | constError s => rfl
  | stdError i s => rfl
  | extraError i se c ih1 ih2 =>
      have hse : isChained se = false := by
        simp [selvesLeaf] at h; exact h.1
      have hc : selvesLeaf c = true := by
        simp [selvesLeaf] at h; exact h.2
      cases c with
      | nilErr => simpa [Cause] using cause_not_chained se hse
      | constError s => simp [Cause]
      | stdError j s => simp [Cause]
      | extraError j e' c' =>
          simp only [Cause]
          exact ih2 hc

/-- C9 witness: idempotence at the concrete chain
`ConstError("a").Because(errors.New("x"))`. -/
theorem cause_idempotent_witness :
    Cause (Cause (ConstError.Because "a" (.stdError 1 "x") 0))
      = Cause (ConstError.Because "a" (.stdError 1 "x") 0) :=
  cause_idempotent (ConstError.Because "a" (.stdError 1 "x") 0) (by decide)

/-- C5 counterexample: `From(nil)` is not absent — it returns a (non-nil)
`*ExtraError` node, allocated at the fresh address, that wraps nothing: both
its fields are nil. -/
theorem from_nil_counterexample :
    From .nilErr 0 = .extraError 0 .nilErr .nilErr
      ∧ nonNil (From .nilErr 0) = true := ⟨rfl, rfl⟩

/-- C5 (amended): `From(nil)` never yields an absent result: it returns a
non-nil `*ExtraError` with absent `err` and absent `cause` — a wrapper around
nothing — which renders as the empty string. -/
theorem from_nil_amended (n : Nat) :
    From .nilErr n = .extraError n .nilErr .nilErr
      ∧ nonNil (From .nilErr n) = true
      ∧ selfPresent (From .nilErr n) = false
      ∧ errorText (From .nilErr n) = "" := by
  refine ⟨rfl, rfl, rfl, ?_⟩
  simp [From, errorsAsExtra, errorText]

/-- C6 counterexample: `Unexpected(nil)` is not absent: it returns the
non-nil node `ConstError("unexpected").Because(nil)`. -/
theorem unexpected_nil_counterexample :
    Unexpected .nilErr 0 ≠ .nilErr
      ∧ Unexpected .nilErr 0 = ConstError.Because "unexpected" .nilErr 0 :=
  ⟨by decide, rfl⟩

/-- C6 (amended): `Unexpected(cause)` returns
`ConstError("unexpected").Because(cause)` — a node with self the
`"unexpected"` identity and the given cause — and the result is never
absent, also when the cause is nil. -/
theorem unexpected_amended (cause : GoError) (n : Nat) :
    Unexpected cause n = ConstError.Because "unexpected" cause n
      ∧ errField (Unexpected cause n) = ErrUnexpected
      ∧ causeField (Unexpected cause n) = cause
      ∧ Unexpected cause n ≠ .nilErr := by
  refine ⟨rfl, rfl, rfl, ?_⟩
  intro h
  exact GoError.noConfusion h

/-- C10: rendering is total on nodes with an absent `err` field — the
explicitly guarded nil-self branch of `(*ExtraError).Error` returns the
empty string whatever the `cause` field holds; in particular the node
`From(nil)` produces renders as `""`. -/
theorem nil_self_renders_empty (i n : Nat) (c : GoError) :
    errorText (.extraError i .nilErr c) = ""
      ∧ errorText (From .nilErr n) = "" := by
  constructor
  · simp [errorText]
  · simp [From, errorsAsExtra, errorText]

/-- C1 counterexample: the reachable node
`ConstError("base error").Because(From(nil))` has a present (non-nil) cause,
yet its root cause is nil and `Error()` renders the self's text alone, with
no parenthesised root appended — against the claim that a present cause
always yields `"<self> (<root>)"`. -/
theorem error_render_counterexample :
    nonNil (causeField (ConstError.Because "base error" (From .nilErr 1) 0)) = true
      ∧ Cause (causeField (ConstError.Because "base error" (From .nilErr 1) 0)) = .nilErr
      ∧ errorText (ConstError.Because "base error" (From .nilErr 1) 0) = "base error"
      ∧ errorText (ConstError.Because "base error" (From .nilErr 1) 0)
          ≠ errorText (.constError "base error") ++ " ("
              ++ errorText (Cause (causeField (ConstError.Because "base error" (From .nilErr 1) 0)))
              ++ ")" := by
  refine ⟨rfl, rfl, ?_, ?_⟩ <;>
    simp [ConstError.Because, From, errorsAsExtra, errorText, Cause, causeField]

/-- C1 (amended): for every node with a present self, `Error()` returns the
self's text, followed by the root cause (`Cause` of the cause field) in
parentheses exactly when that root cause is non-nil — in particular the
self's text alone whenever the cause is absent; concretely,
`ConstError("base error").Because(errors.New("io failure")).Error()` is
`"base error (io failure)"`. -/
theorem error_render_shallow (i : Nat) (se c : GoError) (h : se ≠ .nilErr) :
    (c = .nilErr → errorText (.extraError i se c) = errorText se)
      ∧ (Cause c = .nilErr → errorText (.extraError i se c) = errorText se)
      ∧ (Cause c ≠ .nilErr →
          errorText (.extraError i se c)
            = errorText se ++ " (" ++ errorText (Cause c) ++ ")")
      ∧ errorText (ConstError.Because "base error" (.stdError 7 "io failure") 0)
          = "base error (io failure)" := by
  refine ⟨?_, ?_, ?_, ?_⟩
  · intro hc; subst hc; simp [errorText, h, Cause]
  · intro hc; simp [errorText, h, hc]
  · intro hc; simp [errorText, h, hc, String.append_assoc]
  · simp [ConstError.Because, errorText, Cause]

/-- C1 witness: the amended rendering rule applied at the concrete scenario
`ConstError("base error").Because(errors.New("io failure"))`. -/
theorem error_render_shallow_witness :
    errorText (.extraError 0 (.constError "base error") (.stdError 7 "io failure"))
      = "base error (io failure)" := by
  have h := (error_render_shallow 0 (.constError "base error") (.stdError 7 "io failure")
    (by decide)).2.2.1 (by decide)
  rw [h]
  simp [errorText, Cause]

/-- Unfolding `errors.Is` on one `Because` link whose self is an identity and
whose target is an identity: the pointer comparison of the node against the
identity fails, the custom `Is` compares the link text and recurses into the
cause, and the `Unwrap` leg re-checks the link text. -/
theorem errorsIs_because (n : Nat) (s : String) (M : GoError) (t : String) :
    errorsIs (.extraError n (.constError s) M) (.constError t)
      = ((s == t) || errorsIs M (.constError t)) := by
  have hM := nonNil_and_errorsIs M (.constError t) rfl
  have hshape : errorsIs (.extraError n (.constError s) M) (.constError t)
      = (((s == t) || (nonNil M && errorsIs M (.constError t))) || (s == t)) := rfl
  rw [hshape, hM]
  cases s == t <;> cases errorsIs M (.constError t) <;> rfl

/-- C2: chain membership — on a chain built by repeated `Because` from
identities and a plain (non-chained) innermost cause, `errors.Is` against an
identity succeeds exactly for the identity texts used somewhere along the
chain (any link's self, or the tail when it is an identity), and fails for
every text never used. -/
theorem is_chain_membership (links : List (Nat × String)) (tail : GoError) (t : String)
    (htail : isChained tail = false) :
    errorsIs (mkChain links tail) (.constError t) = true ↔ t ∈ chainTexts links tail := by
  induction links with
  | nil =>
      cases tail with
      | nilErr =>
          rw [show errorsIs (mkChain [] .nilErr) (.constError t) = false from rfl]
          simp [chainTexts]
      | constError s =>
          rw [show errorsIs (mkChain [] (.constError s)) (.constError t) = (s == t) from rfl]
          simp only [chainTexts, List.map_nil, List.nil_append, List.mem_singleton,
            beq_iff_eq]
          exact eq_comm
      | stdError i s =>
          rw [show errorsIs (mkChain [] (.stdError i s)) (.constError t) = false from rfl]
          simp [chainTexts]
      | extraError i e c => simp [isChained] at htail
  | cons hd rest ih =>
      obtain ⟨n, s⟩ := hd
      simp only [mkChain, ConstError.Because, chainTexts, List.map_cons, List.cons_append,
        List.mem_cons] at *
      rw [errorsIs_because]
      simp only [Bool.or_eq_true, beq_iff_eq]
      constructor
      · rintro (hst | hM)
        · exact Or.inl hst.symm
        · exact Or.inr (ih.mp hM)
      · rintro (hts | hmem)
        · exact Or.inl hts.symm
        · exact Or.inr (ih.mpr hmem)

/-- C2 witness: the three-level chain `L1.Because(L2.Because(L3))` matches
the identity `L2` used inside it and rejects the unused identity `L4`. -/
theorem is_chain_membership_witness :
    errorsIs (mkChain [(1, "L1"), (2, "L2")] (.constError "L3")) (.constError "L2") = true
      ∧ errorsIs (mkChain [(1, "L1"), (2, "L2")] (.constError "L3")) (.constError "L4")
          = false := by
  constructor
  · exact (is_chain_membership [(1, "L1"), (2, "L2")] (.constError "L3") "L2" rfl).mpr
      (by decide)
  · refine Bool.eq_false_iff.mpr ?_
    intro hb
    have hmem := (is_chain_membership [(1, "L1"), (2, "L2")] (.constError "L3") "L4" rfl).mp hb
    exact absurd hmem (by decide)

/-- C4 counterexample: `From(nil)` is produced by a public operation yet the
resulting `*ExtraError` has an absent self field. -/
theorem wellformed_self_counterexample : selfPresent (From .nilErr 0) = false := rfl

/-- C4 (amended): `New`, `ConstError.Because`, `ConstError.Reason` and
`Unexpected` always yield a node with present self; the `*ExtraError`
methods preserve the receiver's self-presence; and `From` establishes it for
any non-nil argument that is not itself a self-less node — `From(nil)` is
the one public way to obtain a node with absent self. -/
theorem wellformed_self (t s txt : String) (cause e other : GoError) (n : Nat) :
    selfPresent (New t n) = true
      ∧ selfPresent (ConstError.Because s cause n) = true
      ∧ selfPresent (ConstError.Reason s txt n) = true
      ∧ selfPresent (Unexpected cause n) = true
      ∧ (selfPresent e = true → selfPresent (ExtraError.Because e cause n) = true)
      ∧ (selfPresent e = true → selfPresent (ExtraError.Reason e txt n) = true)
      ∧ (other ≠ .nilErr → isChained other = false → selfPresent (From other n) = true)
      ∧ (selfPresent other = true → selfPresent (From other n) = true) := by
  refine ⟨rfl, rfl, rfl, rfl, ?_, ?_, ?_, ?_⟩
  · intro he
    cases e <;> simpa [selfPresent, errField, ExtraError.Because] using he
  · intro he
    cases e <;> simpa [selfPresent, errField, ExtraError.Reason] using he
  · intro hnn hnc
    cases other <;>
      simp_all [selfPresent, errField, From, errorsAsExtra, nonNil, isChained]
  · intro hp
    cases other <;>
      simp_all [selfPresent, errField, From, errorsAsExtra, nonNil]

/-- C4 witness: self-presence at concrete instances of each guarded
operation. -/
theorem wellformed_self_witness :
    selfPresent (New "a" 0) = true
      ∧ selfPresent (ExtraError.Because (New "a" 0) (.stdError 1 "x") 0) = true
      ∧ selfPresent (From (.stdError 1 "io") 0) = true
      ∧ selfPresent (From (New "a" 0) 0) = true := by
  have h := wellformed_self "a" "s" "r" (.stdError 1 "x") (New "a" 0) (.stdError 1 "io") 0
  have h' := wellformed_self "a" "s" "r" (.stdError 1 "x") (New "a" 0) (New "a" 0) 0
  exact ⟨h.1, h.2.2.2.2.1 rfl, h.2.2.2.2.2.2.1 (by decide) rfl, h'.2.2.2.2.2.2.2 rfl⟩

/-- C7: decomposition — `Test` on `id.Because(cause)` returns exactly the
pair `(id, cause)`; on any value that is not an `*ExtraError` (nil and plain
external errors included) it panics with the one fixed diagnostic
`"invalid error type"`, never returning gracefully. -/
theorem test_decomposition (s : String) (cause e : GoError) (n : Nat) :
    Test (ConstError.Because s cause n) = .ok (.constError s, cause)
      ∧ (isChained e = false → Test e = .error "invalid error type") := by
  refine ⟨rfl, ?_⟩
  intro he
  cases e with
  | nilErr => rfl
  | constError t => rfl
  | stdError i t => rfl
  | extraError i a c => simp [isChained] at he

/-- C7 witness: decomposition of a concrete `Because` node, and the fixed
panic on nil. -/
theorem test_decomposition_witness :
    Test (ConstError.Because "id" (.stdError 3 "boom") 1)
        = .ok (.constError "id", .stdError 3 "boom")
      ∧ Test .nilErr = .error "invalid error type" :=
  ⟨(test_decomposition "id" (.stdError 3 "boom") .nilErr 1).1,
   (test_decomposition "id" (.stdError 3 "boom") .nilErr 1).2 rfl⟩

/-- C8: `From(From(x))` carries the same `(self, cause)` field pair as
`From(x)`, and on an argument that is already an `*ExtraError`, `From`
returns a defensive copy — a node at the fresh address, never the original
instance. -/
theorem from_idempotent_copy (x : GoError) (n m i : Nat) (e c : GoError) :
    (errField (From (From x n) m) = errField (From x n)
      ∧ causeField (From (From x n) m) = causeField (From x n))
      ∧ (x = .extraError i e c → n ≠ i → From x n ≠ x) := by
  constructor
  · cases x <;> simp [From, errorsAsExtra, errField, causeField]
  · intro hx hni heq
    subst hx
    simp only [From, errorsAsExtra] at heq
    exact hni (by injection heq)

/-- C8 witness: the defensive copy of a concrete node allocated at address 5,
copied to the fresh address 9, is a different instance. -/
theorem from_idempotent_copy_witness :
    From (.extraError 5 (.constError "a") .nilErr) 9
      ≠ .extraError 5 (.constError "a") .nilErr :=
  (from_idempotent_copy (.extraError 5 (.constError "a") .nilErr) 9 7 5
    (.constError "a") .nilErr).2 rfl (by decide)

end Ex
